import Mathlib

/-!
Verification of the dependency-resolution engine of the roadmap tool
(`internal/models`: `Validate`, `ValidateExternalDependencies`,
`GetExternalDependents`).

Go `error` values are modelled as `Option String` (`none` = nil error,
`some msg` = the error message).  Go's `map[string]T` values, which are
only ever inserted into and looked up (never iterated), are modelled as
functions `String → Option T` built by successive overriding inserts,
exactly mirroring Go's last-write-wins insertion; a `map[string]bool`
used as a set is modelled as `String → Bool` with `false` as the zero
value for absent keys, matching Go's zero-value lookup semantics.
-/

/-- `ExternalDependency` struct: a dependency on an item in another roadmap.
Fields `RoadmapName`, `RoadmapID`, `ItemID`, `Reason`, `Criticality`. -/
structure ExternalDependency where
  roadmapName : String
  roadmapID : String
  itemID : String
  reason : String
  criticality : String
deriving Repr, DecidableEq

/-- `RoadmapItem` struct: a single item on a roadmap. -/
structure RoadmapItem where
  id : String
  name : String
  start : String
  «end» : String
  status : String
  description : String
  notes : String
  dependencies : List String
  externalDependencies : List ExternalDependency
deriving Repr, DecidableEq

/-- `Roadmap` struct: a complete roadmap document. -/
structure Roadmap where
  name : String
  serviceLine : String
  owner : String
  notes : String
  items : List RoadmapItem
deriving Repr, DecidableEq

/-- `StoredRoadmap` struct: a roadmap as stored in the system.  The
`CreatedAt`/`UpdatedAt` timestamps are opaque to the engine (never read by
any function verified here) and are modelled as `Nat` placeholders. -/
structure StoredRoadmap where
  id : String
  roadmap : Roadmap
  createdAt : Nat
  updatedAt : Nat
  fileName : String
deriving Repr, DecidableEq

/-- `ExternalDependencyValidation` struct: validation result for one
external dependency.  `error` is `""` when absent (Go `omitempty`). -/
structure ExternalDependencyValidation where
  valid : Bool
  roadmapItemID : String
  dependencyDesc : String
  error : String
deriving Repr, DecidableEq

/-- `DependentEdge`: the anonymous struct returned by
`GetExternalDependents` (RoadmapID, RoadmapName, ItemID, ItemName,
DependsOn). -/
structure DependentEdge where
  roadmapID : String
  roadmapName : String
  itemID : String
  itemName : String
  dependsOn : String
deriving Repr, DecidableEq

/-- `ValidateStatus`: checks that a status string is one of the four
recognized enum values. -/
def ValidateStatus (status : String) : Option String :=
  if status = "planned" ∨ status = "in-progress" ∨ status = "completed" ∨ status = "blocked" then
    none
  else
    some ("invalid status: " ++ status ++ " (must be planned, in-progress, completed, or blocked)")

/-- The `for i, extDep := range r.ExternalDependencies` loop of
`RoadmapItem.Validate`: structural checks on each external dependency,
with the running index `i` used in the error messages. -/
def validateExtDepEntries (i : Nat) : List ExternalDependency → Option String
  | [] => none
  | d :: rest =>
    if d.roadmapName = "" ∧ d.roadmapID = "" then
      some ("external dependency " ++ toString i ++ ": either roadmap name or roadmap_id is required")
    else if d.itemID = "" then
      some ("external dependency " ++ toString i ++ ": item id is required")
    else if d.criticality ≠ "" ∧
        ¬(d.criticality = "low" ∨ d.criticality = "medium" ∨
          d.criticality = "high" ∨ d.criticality = "critical") then
      some ("external dependency " ++ toString i ++ ": invalid criticality '" ++ d.criticality ++
        "' (must be low, medium, high, or critical)")
    else
      validateExtDepEntries (i + 1) rest

/-- `(r *RoadmapItem) Validate()`: required fields, status enum, then the
external-dependency structural checks. -/
def RoadmapItem.Validate (r : RoadmapItem) : Option String :=
  if r.id = "" then some "item id is required"
  else if r.name = "" then some "item name is required"
  else if r.start = "" then some "item start is required"
  else if r.«end» = "" then some "item end is required"
  else
    match ValidateStatus r.status with
    | some e => some e
    | none => validateExtDepEntries 0 r.externalDependencies

/-- Insert into a `map[string]bool` used as a set (`itemIDs[k] = true`). -/
def setInsert (s : String → Bool) (k : String) : String → Bool :=
  fun x => if x = k then true else s x

/-- The first `for i, item := range r.Items` loop of `Roadmap.Validate`:
validate each item, then check it against the `itemIDs` set built so far,
then record its ID.  Returns the final `itemIDs` set on success. -/
def validateItems (i : Nat) (itemIDs : String → Bool) :
    List RoadmapItem → Except String (String → Bool)
  | [] => Except.ok itemIDs
  | item :: rest =>
    match item.Validate with
    | some e => Except.error ("item " ++ toString i ++ ": " ++ e)
    | none =>
      if itemIDs item.id then
        Except.error ("duplicate item id: " ++ item.id)
      else
        validateItems (i + 1) (setInsert itemIDs item.id) rest

/-- The inner `for _, depID := range item.Dependencies` loop of
`Roadmap.Validate`. -/
def checkDepList (itemID : String) (itemIDs : String → Bool) : List String → Option String
  | [] => none
  | d :: rest =>
    if itemIDs d = false then
      some ("item " ++ itemID ++ ": dependency " ++ d ++ " does not exist")
    else
      checkDepList itemID itemIDs rest

/-- The second `for _, item := range r.Items` loop of `Roadmap.Validate`:
every internal dependency must name an existing item ID. -/
def checkDeps (itemIDs : String → Bool) : List RoadmapItem → Option String
  | [] => none
  | item :: rest =>
    match checkDepList item.id itemIDs item.dependencies with
    | some e => some e
    | none => checkDeps itemIDs rest

/-- `(r *Roadmap) Validate()`: name, service_line, at least one item, the
per-item loop (item checks interleaved with the duplicate-ID check), then
the internal-dependency loop. -/
def Roadmap.Validate (r : Roadmap) : Option String :=
  if r.name = "" then some "roadmap name is required"
  else if r.serviceLine = "" then some "service_line is required"
  else if r.items.length = 0 then some "roadmap must have at least one item"
  else
    match validateItems 0 (fun _ => false) r.items with
    | Except.error e => some e
    | Except.ok itemIDs => checkDeps itemIDs r.items

/-- Overriding insert into a `map[string]T` modelled as a function. -/
def mapInsert {α : Type} (m : String → Option α) (k : String) (v : α) :
    String → Option α :=
  fun x => if x = k then some v else m x

/-- Build a string-keyed map from a list by successive inserts, exactly as
the `for i := range roadmaps` loop of `ValidateExternalDependencies`
populates its lookup maps (later entries override earlier ones). -/
def buildMap {β : Type} {α : Type} (key : β → String) (val : β → α)
    (l : List β) : String → Option α :=
  l.foldl (fun m b => mapInsert m (key b) (val b)) (fun _ => none)

/-- `roadmapsByName` lookup map: `RoadmapName → StoredRoadmap`. -/
def buildByName (roadmaps : List StoredRoadmap) : String → Option StoredRoadmap :=
  buildMap (fun rm => rm.roadmap.name) (fun rm => rm) roadmaps

/-- `roadmapsByID` lookup map: `RoadmapID → StoredRoadmap`. -/
def buildByID (roadmaps : List StoredRoadmap) : String → Option StoredRoadmap :=
  buildMap (fun rm => rm.id) (fun rm => rm) roadmaps

/-- The `map[string]bool` of item IDs of one stored roadmap, as built by
the inner `for _, item := range rm.Roadmap.Items` loop. -/
def itemIDSet (rm : StoredRoadmap) : String → Bool :=
  rm.roadmap.items.foldl (fun s item => setInsert s item.id) (fun _ => false)

/-- `itemsByRoadmap` lookup map: `RoadmapID → (ItemID → bool)`.  A missing
roadmap ID yields Go's zero-value map, in which every lookup is `false`. -/
def itemsByRoadmap (roadmaps : List StoredRoadmap) : String → String → Bool :=
  fun rid =>
    match buildMap (fun rm => rm.id) itemIDSet roadmaps rid with
    | some s => s
    | none => fun _ => false

/-- The body of the innermost loop of `ValidateExternalDependencies`
(lines building one `ExternalDependencyValidation` for one declared
external dependency): resolve the target roadmap by ID when
`RoadmapID != ""`, else by name; then check the target item's existence. -/
def validateOneDep (byName byID : String → Option StoredRoadmap)
    (itemsBy : String → String → Bool)
    (srcRoadmapName srcItemID : String) (dep : ExternalDependency) :
    ExternalDependencyValidation :=
  let base : ExternalDependencyValidation :=
    { valid := false
      roadmapItemID := srcRoadmapName ++ ":" ++ srcItemID
      dependencyDesc := dep.roadmapName ++ ":" ++ dep.itemID
      error := "" }
  let found : Except String StoredRoadmap :=
    if dep.roadmapID ≠ "" then
      match byID dep.roadmapID with
      | none => Except.error ("roadmap with ID '" ++ dep.roadmapID ++ "' not found")
      | some t => Except.ok t
    else
      match byName dep.roadmapName with
      | none => Except.error ("roadmap named '" ++ dep.roadmapName ++ "' not found")
      | some t => Except.ok t
  match found with
  | Except.error e => { base with error := e }
  | Except.ok target =>
    if itemsBy target.id dep.itemID = false then
      { base with
          error := "item '" ++ dep.itemID ++ "' not found in roadmap '" ++
            target.roadmap.name ++ "'" }
    else
      { base with valid := true }

/-- `ValidateExternalDependencies`: build the three lookup maps, then for
every roadmap, every item, every declared external dependency, append one
validation result. -/
def ValidateExternalDependencies (roadmaps : List StoredRoadmap) :
    List ExternalDependencyValidation :=
  let byName := buildByName roadmaps
  let byID := buildByID roadmaps
  let itemsBy := itemsByRoadmap roadmaps
  roadmaps.foldl
    (fun acc rm =>
      rm.roadmap.items.foldl
        (fun acc2 item =>
          item.externalDependencies.foldl
            (fun acc3 dep =>
              acc3 ++ [validateOneDep byName byID itemsBy rm.roadmap.name item.id dep])
            acc2)
        acc)
    []

/-- The validation result `ValidateExternalDependencies` produces for one
external dependency of one item, with the lookup maps built from the given
corpus. -/
def resolveExternalDependency (roadmaps : List StoredRoadmap)
    (srcRoadmapName srcItemID : String) (dep : ExternalDependency) :
    ExternalDependencyValidation :=
  validateOneDep (buildByName roadmaps) (buildByID roadmaps)
    (itemsByRoadmap roadmaps) srcRoadmapName srcItemID dep

/-- Reformulation of the reverse-dependents query following the words of
the specification (§4.4): the set of dependent edges, one for each
external dependency of each item of each roadmap other than the target
roadmap itself, whose `target_roadmap_id` equals the queried ID or whose
`target_roadmap_name` equals the target roadmap's name; compared against
`GetExternalDependents` for refinement. -/
def dependentEdgesSpec (targetID : String)
    (corpus : List StoredRoadmap) : List DependentEdge :=
  match corpus.find? (fun rm => rm.id == targetID) with
  | none => []
  | some target =>
    (corpus.filter (fun rm => decide (rm.id ≠ targetID))).flatMap (fun rm =>
      rm.roadmap.items.flatMap (fun item =>
        (item.externalDependencies.filter (fun dep =>
          decide (dep.roadmapID = targetID ∨
            dep.roadmapName = target.roadmap.name))).map (fun dep =>
          { roadmapID := rm.id
            roadmapName := rm.roadmap.name
            itemID := item.id
            itemName := item.name
            dependsOn := dep.itemID })))

/-- `GetExternalDependents`: find the target roadmap by ID (first match,
as the Go loop breaks on the first hit), return empty when absent;
otherwise scan every other roadmap's items for external dependencies whose
`RoadmapID` equals the queried ID or whose `RoadmapName` equals the target
roadmap's name. -/
def GetExternalDependents (roadmapID : String)
    (allRoadmaps : List StoredRoadmap) : List DependentEdge :=
  match allRoadmaps.find? (fun rm => rm.id == roadmapID) with
  | none => []
  | some target =>
    allRoadmaps.foldl
      (fun acc rm =>
        if rm.id = roadmapID then acc
        else
          rm.roadmap.items.foldl
            (fun acc2 item =>
              item.externalDependencies.foldl
                (fun acc3 dep =>
                  if dep.roadmapID = roadmapID ∨ dep.roadmapName = target.roadmap.name then
                    acc3 ++ [{ roadmapID := rm.id
                               roadmapName := rm.roadmap.name
                               itemID := item.id
                               itemName := item.name
                               dependsOn := dep.itemID }]
                  else acc3)
                acc2)
            acc)
      []

/-- Item with ID `a`, used in the concrete corpora below. -/
def itemA : RoadmapItem :=
  { id := "a", name := "Item A", start := "2025-Q1", «end» := "2025-Q2"
    status := "planned", description := "", notes := ""
    dependencies := [], externalDependencies := [] }

/-- A second item also carrying ID `a` (duplicate of `itemA`'s ID). -/
def itemA2 : RoadmapItem :=
  { id := "a", name := "Item A2", start := "2025-Q2", «end» := "2025-Q3"
    status := "planned", description := "", notes := ""
    dependencies := [], externalDependencies := [] }

/-- Item with ID `c` whose status `bogus` is not a recognized enum value. -/
def itemCBadStatus : RoadmapItem :=
  { id := "c", name := "Item C", start := "2025-Q3", «end» := "2025-Q4"
    status := "bogus", description := "", notes := ""
    dependencies := [], externalDependencies := [] }

/-- A roadmap whose first two items share ID `a` and whose third item has
an invalid status. -/
def dupThenBadStatusRoadmap : Roadmap :=
  { name := "R", serviceLine := "SL", owner := "", notes := ""
    items := [itemA, itemA2, itemCBadStatus] }

/-- A roadmap whose only item lists its own ID twice in `dependencies`
(a self-loop declared twice). -/
def selfLoopRoadmap : Roadmap :=
  { name := "R", serviceLine := "SL", owner := "", notes := ""
    items := [{ id := "a", name := "Item A", start := "2025-Q1", «end» := "2025-Q2"
                status := "planned", description := "", notes := ""
                dependencies := ["a", "a"], externalDependencies := [] }] }

/-- Stored roadmap `r1` named `R1` with one item `a`. -/
def sampleR1 : StoredRoadmap :=
  { id := "r1"
    roadmap := { name := "R1", serviceLine := "SL", owner := "", notes := ""
                 items := [itemA] }
    createdAt := 0, updatedAt := 0, fileName := "r1.yaml" }

/-- External dependency of `sampleR2`'s item `b`, targeting roadmap
`r1`/`R1`, item `a`. -/
def sampleDep : ExternalDependency :=
  { roadmapName := "R1", roadmapID := "r1", itemID := "a"
    reason := "", criticality := "" }

/-- Stored roadmap `r2` named `R2` whose item `b` depends externally on
`r1`'s item `a`. -/
def sampleR2 : StoredRoadmap :=
  { id := "r2"
    roadmap := { name := "R2", serviceLine := "SL", owner := "", notes := ""
                 items := [{ id := "b", name := "Item B", start := "2025-Q1"
                             «end» := "2025-Q2", status := "planned"
                             description := "", notes := ""
                             dependencies := []
                             externalDependencies := [sampleDep] }] }
    createdAt := 0, updatedAt := 0, fileName := "r2.yaml" }

/-- Two-roadmap corpus used by several concrete witnesses. -/
def sampleCorpus : List StoredRoadmap := [sampleR1, sampleR2]

/-- Stored roadmap `d1`, the FIRST of two roadmaps named `Dup`; it has an
item `p` but no item `q`. -/
def dupNameFirst : StoredRoadmap :=
  { id := "d1"
    roadmap := { name := "Dup", serviceLine := "SL", owner := "", notes := ""
                 items := [{ id := "p", name := "Item P", start := "2025-Q1"
                             «end» := "2025-Q2", status := "planned"
                             description := "", notes := ""
                             dependencies := [], externalDependencies := [] }] }
    createdAt := 0, updatedAt := 0, fileName := "d1.yaml" }

/-- Stored roadmap `d2`, the SECOND (last-indexed) of two roadmaps named
`Dup`; it has an item `q` but no item `p`. -/
def dupNameSecond : StoredRoadmap :=
  { id := "d2"
    roadmap := { name := "Dup", serviceLine := "SL", owner := "", notes := ""
                 items := [{ id := "q", name := "Item Q", start := "2025-Q1"
                             «end» := "2025-Q2", status := "planned"
                             description := "", notes := ""
                             dependencies := [], externalDependencies := [] }] }
    createdAt := 0, updatedAt := 0, fileName := "d2.yaml" }

/-- Name-only external dependency on roadmap `Dup`, item `q`. -/
def dupNameDep : ExternalDependency :=
  { roadmapName := "Dup", roadmapID := "", itemID := "q"
    reason := "", criticality := "" }

/-- Stored roadmap `x` named `X` with one item `i`. -/
def roadmapX : StoredRoadmap :=
  { id := "x"
    roadmap := { name := "X", serviceLine := "SL", owner := "", notes := ""
                 items := [{ id := "i", name := "Item I", start := "2025-Q1"
                             «end» := "2025-Q2", status := "planned"
                             description := "", notes := ""
                             dependencies := [], externalDependencies := [] }] }
    createdAt := 0, updatedAt := 0, fileName := "x.yaml" }

/-- Stored roadmap `y` named `Y` with one item `j` (and no item `i`). -/
def roadmapY : StoredRoadmap :=
  { id := "y"
    roadmap := { name := "Y", serviceLine := "SL", owner := "", notes := ""
                 items := [{ id := "j", name := "Item J", start := "2025-Q1"
                             «end» := "2025-Q2", status := "planned"
                             description := "", notes := ""
                             dependencies := [], externalDependencies := [] }] }
    createdAt := 0, updatedAt := 0, fileName := "y.yaml" }

/-- External dependency declaring BOTH `roadmap_id = "x"` (roadmap X's ID)
and `roadmap = "Y"` (roadmap Y's name), with target item `i`. -/
def mixedDep : ExternalDependency :=
  { roadmapName := "Y", roadmapID := "x", itemID := "i"
    reason := "", criticality := "" }

/-- Stored roadmap `z` named `Z` whose item `s` declares `mixedDep`. -/
def roadmapZ : StoredRoadmap :=
  { id := "z"
    roadmap := { name := "Z", serviceLine := "SL", owner := "", notes := ""
                 items := [{ id := "s", name := "Item S", start := "2025-Q1"
                             «end» := "2025-Q2", status := "planned"
                             description := "", notes := ""
                             dependencies := []
                             externalDependencies := [mixedDep] }] }
    createdAt := 0, updatedAt := 0, fileName := "z.yaml" }

/-- Corpus with distinct roadmaps X, Y and a third roadmap Z whose item
carries `mixedDep`. -/
def mixedCorpus : List StoredRoadmap := [roadmapX, roadmapY, roadmapZ]

/-- A map built by successive overriding inserts answers a lookup with the
LAST entry whose key matches (found here as the first match in the
reversed list), falling back to the initial map. -/
theorem buildMap_foldl {β α : Type} (key : β → String) (val : β → α) :
    ∀ (l : List β) (m : String → Option α) (k : String),
      List.foldl (fun m b => mapInsert m (key b) (val b)) m l k =
        (match l.reverse.find? (fun b => key b == k) with
         | some b => some (val b)
         | none => m k)
  | [], _, _ => rfl
  | b :: l, m, k => by
    simp only [List.foldl_cons, List.reverse_cons, List.find?_append]
    rw [buildMap_foldl key val l]
    cases h : l.reverse.find? (fun b => key b == k) with
    | some b2 => simp [Option.or]
    | none =>
      simp only [Option.or]
      by_cases hk : key b = k
      · simp [List.find?, mapInsert, hk]
      · have hbf : (key b == k) = false := beq_eq_false_iff_ne.mpr hk
        have hk2 : k ≠ key b := fun h2 => hk h2.symm
        simp [List.find?, mapInsert, hbf, hk2]

/-- `buildMap` as the value at the last matching entry. -/
theorem buildMap_eq {β α : Type} (key : β → String) (val : β → α)
    (l : List β) (k : String) :
    buildMap key val l k = (l.reverse.find? (fun b => key b == k)).map val := by
  rw [buildMap, buildMap_foldl]
  cases h : l.reverse.find? (fun b => key b == k) <;> simp

/-- Lookup in a built map misses exactly when no entry has the key. -/
theorem buildMap_lookup_none {β α : Type} (key : β → String) (val : β → α)
    {l : List β} {k : String} (h : ∀ b ∈ l, key b ≠ k) :
    buildMap key val l k = none := by
  rw [buildMap_eq]
  have hnone : l.reverse.find? (fun b => key b == k) = none :=
    List.find?_eq_none.mpr fun x hx => by
      simpa using h x (List.mem_reverse.mp hx)
  simp [hnone]

/-- When keys are pairwise distinct, lookup at the key of a member returns
exactly that member's value. -/
theorem buildMap_lookup_unique {β α : Type} (key : β → String) (val : β → α)
    {l : List β} {k : String} {b : β}
    (hnd : (l.map key).Nodup) (hb : b ∈ l) (hk : key b = k) :
    buildMap key val l k = some (val b) := by
  rw [buildMap_eq]
  cases h : l.reverse.find? (fun x => key x == k) with
  | none =>
    exact absurd (by simpa using hk)
      (by simpa using List.find?_eq_none.mp h b (List.mem_reverse.mpr hb))
  | some b2 =>
    have hp : key b2 = k := by simpa using List.find?_some h
    have hmem : b2 ∈ l := List.mem_reverse.mp (List.mem_of_find?_eq_some h)
    have : b2 = b := List.inj_on_of_nodup_map hnd hmem hb (hp.trans hk.symm)
    subst this
    simp

/-- Lookup in a built map returns the LAST entry whose key matches, even
when earlier entries share the key. -/
theorem buildMap_lookup_last {β α : Type} (key : β → String) (val : β → α)
    (l₁ l₂ : List β) (b : β) {k : String}
    (hk : key b = k) (h₂ : ∀ x ∈ l₂, key x ≠ k) :
    buildMap key val (l₁ ++ b :: l₂) k = some (val b) := by
  rw [buildMap_eq]
  have hrev : (l₁ ++ b :: l₂).reverse = l₂.reverse ++ [b] ++ l₁.reverse := by
    simp
  rw [hrev, List.find?_append, List.find?_append]
  have hnone : l₂.reverse.find? (fun x => key x == k) = none :=
    List.find?_eq_none.mpr fun x hx => by
      simpa using h₂ x (List.mem_reverse.mp hx)
  simp [hnone, Option.or, List.find?, hk]

/-- The membership function of a set built by successive inserts. -/
theorem foldl_setInsert (l : List RoadmapItem) :
    ∀ (s : String → Bool) (k : String),
      (List.foldl (fun s item => setInsert s item.id) s l) k =
        (s k || decide (k ∈ l.map RoadmapItem.id)) := by
  induction l with
  | nil => intro s k; simp
  | cons item rest ih =>
    intro s k
    simp only [List.foldl_cons]
    rw [ih]
    by_cases hk : k = item.id
    · simp [setInsert, hk]
    · simp [setInsert, hk]

/-- `itemIDSet rm` is exactly membership in `rm`'s list of item IDs. -/
theorem itemIDSet_eq (rm : StoredRoadmap) (k : String) :
    itemIDSet rm k = decide (k ∈ rm.roadmap.items.map RoadmapItem.id) := by
  rw [itemIDSet, foldl_setInsert]
  simp

/-- With pairwise-distinct roadmap IDs, `itemsByRoadmap` at a stored
roadmap's ID is that roadmap's item-ID set. -/
theorem itemsByRoadmap_at_id {c : List StoredRoadmap} {rm : StoredRoadmap}
    (hnd : (c.map StoredRoadmap.id).Nodup) (hmem : rm ∈ c) :
    itemsByRoadmap c rm.id = itemIDSet rm := by
  have h := buildMap_lookup_unique (fun x => x.id) itemIDSet
    (l := c) (k := rm.id) (b := rm) hnd hmem rfl
  simp only [itemsByRoadmap]
  rw [h]

/-- `validateOneDep` when the dependency has a non-empty roadmap ID that
misses in the ID map. -/
theorem validateOneDep_id_missing (byName byID : String → Option StoredRoadmap)
    (itemsBy : String → String → Bool) (s i : String) (dep : ExternalDependency)
    (hid : dep.roadmapID ≠ "") (h : byID dep.roadmapID = none) :
    validateOneDep byName byID itemsBy s i dep =
      { valid := false, roadmapItemID := s ++ ":" ++ i
        dependencyDesc := dep.roadmapName ++ ":" ++ dep.itemID
        error := "roadmap with ID '" ++ dep.roadmapID ++ "' not found" } := by
  simp only [validateOneDep]
  rw [if_pos hid, h]

/-- `validateOneDep` when the dependency has a non-empty roadmap ID that
hits in the ID map. -/
theorem validateOneDep_id_found (byName byID : String → Option StoredRoadmap)
    (itemsBy : String → String → Bool) (s i : String) (dep : ExternalDependency)
    (t : StoredRoadmap)
    (hid : dep.roadmapID ≠ "") (h : byID dep.roadmapID = some t) :
    validateOneDep byName byID itemsBy s i dep =
      (if itemsBy t.id dep.itemID = false then
        { valid := false, roadmapItemID := s ++ ":" ++ i
          dependencyDesc := dep.roadmapName ++ ":" ++ dep.itemID
          error := "item '" ++ dep.itemID ++ "' not found in roadmap '" ++
            t.roadmap.name ++ "'" }
      else
        { valid := true, roadmapItemID := s ++ ":" ++ i
          dependencyDesc := dep.roadmapName ++ ":" ++ dep.itemID
          error := "" }) := by
  simp only [validateOneDep]
  rw [if_pos hid, h]

/-- `validateOneDep` when the dependency has an empty roadmap ID and its
roadmap name misses in the name map. -/
theorem validateOneDep_name_missing (byName byID : String → Option StoredRoadmap)
    (itemsBy : String → String → Bool) (s i : String) (dep : ExternalDependency)
    (hid : dep.roadmapID = "") (h : byName dep.roadmapName = none) :
    validateOneDep byName byID itemsBy s i dep =
      { valid := false, roadmapItemID := s ++ ":" ++ i
        dependencyDesc := dep.roadmapName ++ ":" ++ dep.itemID
        error := "roadmap named '" ++ dep.roadmapName ++ "' not found" } := by
  simp only [validateOneDep]
  rw [if_neg (by simp [hid]), h]

/-- `validateOneDep` when the dependency has an empty roadmap ID and its
roadmap name hits in the name map. -/
theorem validateOneDep_name_found (byName byID : String → Option StoredRoadmap)
    (itemsBy : String → String → Bool) (s i : String) (dep : ExternalDependency)
    (t : StoredRoadmap)
    (hid : dep.roadmapID = "") (h : byName dep.roadmapName = some t) :
    validateOneDep byName byID itemsBy s i dep =
      (if itemsBy t.id dep.itemID = false then
        { valid := false, roadmapItemID := s ++ ":" ++ i
          dependencyDesc := dep.roadmapName ++ ":" ++ dep.itemID
          error := "item '" ++ dep.itemID ++ "' not found in roadmap '" ++
            t.roadmap.name ++ "'" }
      else
        { valid := true, roadmapItemID := s ++ ":" ++ i
          dependencyDesc := dep.roadmapName ++ ":" ++ dep.itemID
          error := "" }) := by
  simp only [validateOneDep]
  rw [if_neg (by simp [hid]), h]

/-- C1: For every corpus (with the spec's invariants: pairwise-distinct
roadmap IDs and, so that a name-resolved target is well-defined,
pairwise-distinct names) and every external dependency declared on an
item, the resolver produces a ValidationResult whose outcome is exactly:
invalid with error `roadmap with ID '<id>' not found` when
`target_roadmap_id` is non-empty and no roadmap in the corpus has that ID;
invalid with error `roadmap named '<name>' not found` when
`target_roadmap_id` is empty and no roadmap has that name; invalid with
error `item '<item>' not found in roadmap '<name>'` when a target roadmap
is found but it has no item with `target_item_id`; and valid with no error
otherwise. -/
theorem c1_resolver_outcome (c : List StoredRoadmap) (srcName srcItem : String)
    (dep : ExternalDependency)
    (hids : (c.map StoredRoadmap.id).Nodup)
    (hnames : (c.map (fun rm => rm.roadmap.name)).Nodup) :
    (dep.roadmapID ≠ "" → (∀ rm ∈ c, rm.id ≠ dep.roadmapID) →
      resolveExternalDependency c srcName srcItem dep =
        { valid := false, roadmapItemID := srcName ++ ":" ++ srcItem
          dependencyDesc := dep.roadmapName ++ ":" ++ dep.itemID
          error := "roadmap with ID '" ++ dep.roadmapID ++ "' not found" }) ∧
    (dep.roadmapID = "" → (∀ rm ∈ c, rm.roadmap.name ≠ dep.roadmapName) →
      resolveExternalDependency c srcName srcItem dep =
        { valid := false, roadmapItemID := srcName ++ ":" ++ srcItem
          dependencyDesc := dep.roadmapName ++ ":" ++ dep.itemID
          error := "roadmap named '" ++ dep.roadmapName ++ "' not found" }) ∧
    (∀ target ∈ c,
      (dep.roadmapID ≠ "" → target.id = dep.roadmapID) →
      (dep.roadmapID = "" → target.roadmap.name = dep.roadmapName) →
      ((dep.itemID ∉ target.roadmap.items.map RoadmapItem.id →
        resolveExternalDependency c srcName srcItem dep =
          { valid := false, roadmapItemID := srcName ++ ":" ++ srcItem
            dependencyDesc := dep.roadmapName ++ ":" ++ dep.itemID
            error := "item '" ++ dep.itemID ++ "' not found in roadmap '" ++
              target.roadmap.name ++ "'" }) ∧
       (dep.itemID ∈ target.roadmap.items.map RoadmapItem.id →
        resolveExternalDependency c srcName srcItem dep =
          { valid := true, roadmapItemID := srcName ++ ":" ++ srcItem
            dependencyDesc := dep.roadmapName ++ ":" ++ dep.itemID
            error := "" }))) := by
  refine ⟨?_, ?_, ?_⟩
  · intro hid hnone
    exact validateOneDep_id_missing _ _ _ _ _ _ hid
      (buildMap_lookup_none _ _ hnone)
  · intro hid hnone
    exact validateOneDep_name_missing _ _ _ _ _ _ hid
      (buildMap_lookup_none _ _ hnone)
  · intro target hmem h1 h2
    by_cases hid : dep.roadmapID = ""
    · have hfound : buildByName c dep.roadmapName = some target :=
        buildMap_lookup_unique _ _ hnames hmem (h2 hid)
      have hred := validateOneDep_name_found (buildByName c) (buildByID c)
        (itemsByRoadmap c) srcName srcItem dep target hid hfound
      constructor
      · intro hnotin
        rw [resolveExternalDependency, hred, itemsByRoadmap_at_id hids hmem,
          itemIDSet_eq]
        simp [hnotin]
      · intro hin
        rw [resolveExternalDependency, hred, itemsByRoadmap_at_id hids hmem,
          itemIDSet_eq]
        simp [hin]
    · have hfound : buildByID c dep.roadmapID = some target :=
        buildMap_lookup_unique _ _ hids hmem (h1 hid)
      have hred := validateOneDep_id_found (buildByName c) (buildByID c)
        (itemsByRoadmap c) srcName srcItem dep target hid hfound
      constructor
      · intro hnotin
        rw [resolveExternalDependency, hred, itemsByRoadmap_at_id hids hmem,
          itemIDSet_eq]
        simp [hnotin]
      · intro hin
        rw [resolveExternalDependency, hred, itemsByRoadmap_at_id hids hmem,
          itemIDSet_eq]
        simp [hin]

/-- Witness for C1 at a concrete corpus: the sample dependency of `r2`'s
item `b` on `r1`'s item `a` resolves to a valid result. -/
theorem c1_resolver_outcome_witness :
    resolveExternalDependency sampleCorpus "R2" "b" sampleDep =
      { valid := true, roadmapItemID := "R2:b", dependencyDesc := "R1:a"
        error := "" } :=
  ((c1_resolver_outcome sampleCorpus "R2" "b" sampleDep (by decide)
      (by decide)).2.2 sampleR1 (by decide) (by decide) (by decide)).2
    (by decide)

/-- C2: when `target_roadmap_id` is non-empty and no roadmap has that ID,
the result is the ID-not-found error even when some roadmap in the corpus
has a name equal to the dependency's `target_roadmap_name`. -/
theorem c2_id_first_resolution (c : List StoredRoadmap)
    (srcName srcItem : String) (dep : ExternalDependency)
    (hid : dep.roadmapID ≠ "")
    (hnoID : ∀ rm ∈ c, rm.id ≠ dep.roadmapID)
    (hname : ∃ rm ∈ c, rm.roadmap.name = dep.roadmapName) :
    resolveExternalDependency c srcName srcItem dep =
      { valid := false, roadmapItemID := srcName ++ ":" ++ srcItem
        dependencyDesc := dep.roadmapName ++ ":" ++ dep.itemID
        error := "roadmap with ID '" ++ dep.roadmapID ++ "' not found" } :=
  validateOneDep_id_missing _ _ _ _ _ _ hid (buildMap_lookup_none _ _ hnoID)

/-- Witness for C2: a dependency declaring the unknown ID `nope` together
with the existing name `R1` still fails with the ID error. -/
theorem c2_id_first_resolution_witness :
    resolveExternalDependency [sampleR1] "R9" "q"
        { roadmapName := "R1", roadmapID := "nope", itemID := "a"
          reason := "", criticality := "" } =
      { valid := false, roadmapItemID := "R9:q", dependencyDesc := "R1:a"
        error := "roadmap with ID 'nope' not found" } :=
  c2_id_first_resolution [sampleR1] "R9" "q" _ (by decide) (by decide)
    ⟨sampleR1, by decide, by decide⟩

/-- C7: in a corpus where two or more roadmaps share a name, a dependency
declared only by that name is resolved against the LAST such roadmap in
corpus iteration order: it is valid exactly when that last roadmap has the
target item, and the item-not-found diagnostic names that last roadmap. -/
theorem c7_last_write_wins (c₁ c₂ : List StoredRoadmap)
    (lastRM : StoredRoadmap) (srcName srcItem : String)
    (dep : ExternalDependency)
    (hids : ((c₁ ++ lastRM :: c₂).map StoredRoadmap.id).Nodup)
    (hid : dep.roadmapID = "")
    (hlast : lastRM.roadmap.name = dep.roadmapName)
    (hafter : ∀ rm ∈ c₂, rm.roadmap.name ≠ dep.roadmapName)
    (hdup : ∃ rm ∈ c₁, rm.roadmap.name = dep.roadmapName) :
    (dep.itemID ∈ lastRM.roadmap.items.map RoadmapItem.id →
      resolveExternalDependency (c₁ ++ lastRM :: c₂) srcName srcItem dep =
        { valid := true, roadmapItemID := srcName ++ ":" ++ srcItem
          dependencyDesc := dep.roadmapName ++ ":" ++ dep.itemID
          error := "" }) ∧
    (dep.itemID ∉ lastRM.roadmap.items.map RoadmapItem.id →
      resolveExternalDependency (c₁ ++ lastRM :: c₂) srcName srcItem dep =
        { valid := false, roadmapItemID := srcName ++ ":" ++ srcItem
          dependencyDesc := dep.roadmapName ++ ":" ++ dep.itemID
          error := "item '" ++ dep.itemID ++ "' not found in roadmap '" ++
            lastRM.roadmap.name ++ "'" }) := by
  have hfound : buildByName (c₁ ++ lastRM :: c₂) dep.roadmapName = some lastRM :=
    buildMap_lookup_last _ _ c₁ c₂ lastRM hlast hafter
  have hmem : lastRM ∈ c₁ ++ lastRM :: c₂ := by simp
  have hred := validateOneDep_name_found (buildByName (c₁ ++ lastRM :: c₂))
    (buildByID (c₁ ++ lastRM :: c₂)) (itemsByRoadmap (c₁ ++ lastRM :: c₂))
    srcName srcItem dep lastRM hid hfound
  constructor
  · intro hin
    rw [resolveExternalDependency, hred, itemsByRoadmap_at_id hids hmem,
      itemIDSet_eq]
    simp [hin]
  · intro hnotin
    rw [resolveExternalDependency, hred, itemsByRoadmap_at_id hids hmem,
      itemIDSet_eq]
    simp [hnotin]

/-- Witness for C7: with two roadmaps both named `Dup`, the name-only
dependency on item `q` is resolved against the second (last-indexed) one,
which has `q`, so the result is valid. -/
theorem c7_last_write_wins_witness :
    resolveExternalDependency [dupNameFirst, dupNameSecond] "S" "s"
        dupNameDep =
      { valid := true, roadmapItemID := "S:s", dependencyDesc := "Dup:q"
        error := "" } :=
  (c7_last_write_wins [dupNameFirst] [] dupNameSecond "S" "s" dupNameDep
    (by decide) (by decide) (by decide) (by decide)
    ⟨dupNameFirst, by decide, by decide⟩).1 (by decide)

/-- C4: for every roadmap ID not equal to the ID of any roadmap in the
corpus, `GetExternalDependents` returns an empty list (and cannot fail),
regardless of what external dependencies elsewhere reference that ID. -/
theorem c4_unknown_target_empty (c : List StoredRoadmap) (tid : String)
    (h : ∀ rm ∈ c, rm.id ≠ tid) :
    GetExternalDependents tid c = [] := by
  have hnone : c.find? (fun rm => rm.id == tid) = none :=
    List.find?_eq_none.mpr fun rm hrm => by simpa using h rm hrm
  simp [GetExternalDependents, hnone]

/-- Witness for C4: querying the sample corpus (which even contains an
external dependency) for an unknown ID yields the empty list. -/
theorem c4_unknown_target_empty_witness :
    GetExternalDependents "ghost" sampleCorpus = [] :=
  c4_unknown_target_empty sampleCorpus "ghost" (by decide)

/-- C8: `ValidateExternalDependencies` is deterministic — two runs on the
same corpus value produce identical result lists; the function depends on
no hidden state. -/
theorem c8_deterministic (c : List StoredRoadmap)
    (r₁ r₂ : List ExternalDependencyValidation)
    (h₁ : r₁ = ValidateExternalDependencies c)
    (h₂ : r₂ = ValidateExternalDependencies c) : r₁ = r₂ :=
  h₁.trans h₂.symm

/-- Witness for C8 at the sample corpus. -/
theorem c8_deterministic_witness :
    ValidateExternalDependencies sampleCorpus =
      ValidateExternalDependencies sampleCorpus :=
  c8_deterministic sampleCorpus (ValidateExternalDependencies sampleCorpus)
    (ValidateExternalDependencies sampleCorpus) rfl rfl

/-- C10: in `GetExternalDependents` the name disjunct applies even to
dependencies carrying a non-empty `target_roadmap_id`.  In `mixedCorpus`,
`mixedDep` declares roadmap X's ID together with roadmap Y's name: the
reverse query for Y's ID reports it as a dependent edge of Y, while the
resolver of `ValidateExternalDependencies` resolves the same dependency by
ID to X — the result is valid because item `i` exists in X and not in Y,
so the query's disjunctive match does not honour the ID-first rule. -/
theorem c10_query_ignores_id_priority :
    GetExternalDependents "y" mixedCorpus =
      [{ roadmapID := "z", roadmapName := "Z", itemID := "s"
         itemName := "Item S", dependsOn := "i" }] ∧
    resolveExternalDependency mixedCorpus "Z" "s" mixedDep =
      { valid := true, roadmapItemID := "Z:s", dependencyDesc := "Y:i"
        error := "" } ∧
    "i" ∉ roadmapY.roadmap.items.map RoadmapItem.id := by
  refine ⟨by decide, by decide, by decide⟩

/-- A left fold whose body appends a per-element block to the accumulator
equals the initial accumulator followed by the concatenation of the
blocks. -/
theorem foldl_append_blocks {γ δ : Type} (f : γ → List δ)
    (body : List δ → γ → List δ)
    (hbody : ∀ acc x, body acc x = acc ++ f x) :
    ∀ (l : List γ) (acc : List δ), l.foldl body acc = acc ++ l.flatMap f
  | [], acc => by simp
  | x :: l, acc => by
    simp only [List.foldl_cons, hbody]
    rw [foldl_append_blocks f body hbody l]
    simp

/-- Concatenating singleton blocks is mapping. -/
theorem flatMap_singleton_eq_map {γ δ : Type} (g : γ → δ) :
    ∀ l : List γ, (l.flatMap fun x => [g x]) = l.map g
  | [] => rfl
  | x :: l => by simp [flatMap_singleton_eq_map g l]

/-- Concatenating guarded singleton blocks is mapping over a filter. -/
theorem flatMap_guard_singleton {γ δ : Type} (p : γ → Prop) [DecidablePred p]
    (g : γ → δ) :
    ∀ l : List γ, (l.flatMap fun x => if p x then [g x] else []) =
      (l.filter fun x => decide (p x)).map g
  | [] => rfl
  | x :: l => by
    by_cases hp : p x <;>
      simp [flatMap_guard_singleton p g l, hp, List.filter_cons]

/-- Concatenating blocks with a skip guard is concatenating over the
complementary filter. -/
theorem flatMap_skip_guard {γ δ : Type} (q : γ → Prop) [DecidablePred q]
    (g : γ → List δ) :
    ∀ l : List γ, (l.flatMap fun x => if q x then [] else g x) =
      (l.filter fun x => decide (¬ q x)).flatMap g
  | [] => rfl
  | x :: l => by
    by_cases hq : q x <;>
      simp [flatMap_skip_guard q g l, hq, List.filter_cons]

/-- C6: `ValidateExternalDependencies` returns exactly one result per
declared external dependency, in corpus iteration order, then item
declaration order, then external-dependency declaration order — the
result list is the concatenation, over roadmaps then items, of one
resolution per dependency — and its length is the total count of external
dependencies over all items of all roadmaps. -/
theorem c6_one_result_per_dependency (c : List StoredRoadmap) :
    ValidateExternalDependencies c =
      c.flatMap (fun rm => rm.roadmap.items.flatMap (fun item =>
        item.externalDependencies.map
          (resolveExternalDependency c rm.roadmap.name item.id))) ∧
    (ValidateExternalDependencies c).length =
      (c.map (fun rm => (rm.roadmap.items.map
        (fun item => item.externalDependencies.length)).sum)).sum := by
  have hdep : ∀ (nm iid : String) (deps : List ExternalDependency)
      (acc : List ExternalDependencyValidation),
      deps.foldl (fun a3 d => a3 ++
        [validateOneDep (buildByName c) (buildByID c) (itemsByRoadmap c) nm iid d]) acc =
        acc ++ deps.map
          (validateOneDep (buildByName c) (buildByID c) (itemsByRoadmap c) nm iid) := by
    intro nm iid deps acc
    rw [foldl_append_blocks
      (fun d => [validateOneDep (buildByName c) (buildByID c) (itemsByRoadmap c) nm iid d])
      _ (fun _ _ => rfl) deps acc, flatMap_singleton_eq_map]
  have hitem : ∀ (nm : String) (items : List RoadmapItem)
      (acc : List ExternalDependencyValidation),
      items.foldl (fun a2 item => item.externalDependencies.foldl
        (fun a3 d => a3 ++
          [validateOneDep (buildByName c) (buildByID c) (itemsByRoadmap c) nm item.id d]) a2) acc =
        acc ++ items.flatMap (fun item => item.externalDependencies.map
          (validateOneDep (buildByName c) (buildByID c) (itemsByRoadmap c) nm item.id)) := by
    intro nm items acc
    exact foldl_append_blocks
      (fun item => item.externalDependencies.map
        (validateOneDep (buildByName c) (buildByID c) (itemsByRoadmap c) nm item.id))
      (fun a2 item => item.externalDependencies.foldl
        (fun a3 d => a3 ++
          [validateOneDep (buildByName c) (buildByID c) (itemsByRoadmap c) nm item.id d]) a2)
      (fun a2 item => hdep nm item.id item.externalDependencies a2) items acc
  have hmain : ValidateExternalDependencies c =
      c.flatMap (fun rm => rm.roadmap.items.flatMap (fun item =>
        item.externalDependencies.map
          (resolveExternalDependency c rm.roadmap.name item.id))) := by
    simp only [ValidateExternalDependencies]
    rw [foldl_append_blocks
      (fun rm => rm.roadmap.items.flatMap (fun item =>
        item.externalDependencies.map
          (validateOneDep (buildByName c) (buildByID c) (itemsByRoadmap c)
            rm.roadmap.name item.id)))
      _ (fun acc rm => hitem rm.roadmap.name _ acc) c []]
    rfl
  refine ⟨hmain, ?_⟩
  rw [hmain]
  simp [List.length_flatMap, Function.comp_def]

/-- C3: `GetExternalDependents` returns exactly one `DependentEdge` for
each external dependency, on each item, of each roadmap other than the
target roadmap itself (skipped even if it references itself), whose
`target_roadmap_id` equals the queried ID or whose `target_roadmap_name`
equals the target roadmap's name; each edge carries the source roadmap's
ID and name, the source item's ID and name, and the declared
`target_item_id`, with no existence check on the target item — i.e. the
implementation coincides with the declaratively stated query
`dependentEdgesSpec`. -/
theorem c3_reverse_dependents_query (tid : String) (c : List StoredRoadmap) :
    GetExternalDependents tid c = dependentEdgesSpec tid c := by
  simp only [GetExternalDependents, dependentEdgesSpec]
  cases hfind : c.find? (fun rm => rm.id == tid) with
  | none => rfl
  | some target =>
    dsimp only
    have hdep : ∀ (rm : StoredRoadmap) (item : RoadmapItem)
        (deps : List ExternalDependency) (acc : List DependentEdge),
        deps.foldl (fun acc3 dep =>
          if dep.roadmapID = tid ∨ dep.roadmapName = target.roadmap.name then
            acc3 ++ [{ roadmapID := rm.id, roadmapName := rm.roadmap.name
                       itemID := item.id, itemName := item.name
                       dependsOn := dep.itemID }]
          else acc3) acc =
          acc ++ deps.flatMap (fun dep =>
            if dep.roadmapID = tid ∨ dep.roadmapName = target.roadmap.name then
              [{ roadmapID := rm.id, roadmapName := rm.roadmap.name
                 itemID := item.id, itemName := item.name
                 dependsOn := dep.itemID }]
            else []) := by
      intro rm item deps acc
      exact foldl_append_blocks _ _
        (fun acc3 dep => by
          by_cases hp : dep.roadmapID = tid ∨ dep.roadmapName = target.roadmap.name <;>
            simp [hp])
        deps acc
    have hitem : ∀ (rm : StoredRoadmap) (items : List RoadmapItem)
        (acc : List DependentEdge),
        items.foldl (fun acc2 item => item.externalDependencies.foldl
          (fun acc3 dep =>
            if dep.roadmapID = tid ∨ dep.roadmapName = target.roadmap.name then
              acc3 ++ [{ roadmapID := rm.id, roadmapName := rm.roadmap.name
                         itemID := item.id, itemName := item.name
                         dependsOn := dep.itemID }]
            else acc3) acc2) acc =
          acc ++ items.flatMap (fun item =>
            item.externalDependencies.flatMap (fun dep =>
              if dep.roadmapID = tid ∨ dep.roadmapName = target.roadmap.name then
                [{ roadmapID := rm.id, roadmapName := rm.roadmap.name
                   itemID := item.id, itemName := item.name
                   dependsOn := dep.itemID }]
              else [])) := by
      intro rm items acc
      exact foldl_append_blocks _ _
        (fun acc2 item => hdep rm item item.externalDependencies acc2) items acc
    have houter :
        c.foldl (fun (acc : List DependentEdge) rm =>
          if rm.id = tid then acc
          else
            rm.roadmap.items.foldl (fun acc2 item =>
              item.externalDependencies.foldl (fun acc3 dep =>
                if dep.roadmapID = tid ∨ dep.roadmapName = target.roadmap.name then
                  acc3 ++ [{ roadmapID := rm.id, roadmapName := rm.roadmap.name
                             itemID := item.id, itemName := item.name
                             dependsOn := dep.itemID }]
                else acc3) acc2) acc) [] =
          [] ++ c.flatMap (fun rm =>
            if rm.id = tid then []
            else
              rm.roadmap.items.flatMap (fun item =>
                item.externalDependencies.flatMap (fun dep =>
                  if dep.roadmapID = tid ∨ dep.roadmapName = target.roadmap.name then
                    [{ roadmapID := rm.id, roadmapName := rm.roadmap.name
                       itemID := item.id, itemName := item.name
                       dependsOn := dep.itemID }]
                  else []))) := by
      refine foldl_append_blocks _ _ (fun acc rm => ?_) c []
      by_cases hq : rm.id = tid
      · simp [hq]
      · simp only [if_neg hq]
        exact hitem rm rm.roadmap.items acc
    rw [houter, List.nil_append,
      flatMap_skip_guard (fun rm : StoredRoadmap => rm.id = tid)]
    simp only [flatMap_guard_singleton, ne_eq]

/-- Walking the per-item loop of `Roadmap.Validate` past a prefix of items
that all validate individually and introduce no duplicate ID: the loop
reaches the remainder with the index advanced by the prefix's length and
the ID set extended by exactly the prefix's IDs. -/
theorem validateItems_append (rest : List RoadmapItem) :
    ∀ (pre : List RoadmapItem) (i : Nat) (seen : String → Bool),
      (∀ x ∈ pre, x.Validate = none) →
      (∀ x ∈ pre, seen x.id = false) →
      (pre.map RoadmapItem.id).Nodup →
      ∃ seen2, validateItems i seen (pre ++ rest) =
          validateItems (i + pre.length) seen2 rest ∧
        ∀ k, seen2 k = (seen k || decide (k ∈ pre.map RoadmapItem.id))
  | [], i, seen, _, _, _ => ⟨seen, by simp, fun k => by simp⟩
  | x :: pre, i, seen, hval, hseen, hnd => by
    have hx : x.Validate = none := hval x (by simp)
    have hsx : seen x.id = false := hseen x (by simp)
    have hnd' := hnd
    rw [List.map_cons, List.nodup_cons] at hnd'
    obtain ⟨hnotin, hndpre⟩ := hnd'
    obtain ⟨seen2, heq, hrep⟩ := validateItems_append rest pre (i + 1)
      (setInsert seen x.id)
      (fun y hy => hval y (List.mem_cons_of_mem _ hy))
      (fun y hy => by
        have hne : y.id ≠ x.id := fun he =>
          hnotin (he ▸ List.mem_map_of_mem RoadmapItem.id hy)
        simp [setInsert, hne, hseen y (List.mem_cons_of_mem _ hy)])
      hndpre
    refine ⟨seen2, ?_, ?_⟩
    · have harith : i + (x :: pre).length = i + 1 + pre.length := by
        simp [List.length_cons]
        omega
      rw [List.cons_append]
      simp only [validateItems, hx, hsx]
      rw [harith]
      simpa using heq
    · intro k
      rw [hrep k]
      by_cases hk : k = x.id
      · simp [setInsert, hk]
      · simp [setInsert, hk]

/-- C5 counterexample: in a roadmap whose first two items share ID `a` and
whose third item has the unrecognized status `bogus`, the code reports the
duplicate-ID error (raised while iterating items), not the rule-(4) status
error the claim predicts. -/
theorem c5_counterexample_duplicate_before_status :
    Roadmap.Validate dupThenBadStatusRoadmap = some "duplicate item id: a" ∧
    some "duplicate item id: a" ≠
      some ("item 2: invalid status: bogus" ++
        " (must be planned, in-progress, completed, or blocked)") := by
  refine ⟨by decide, by decide⟩

/-- C5 (amended): rules (1)–(3) are checked first in order, but rule (5)
is NOT deferred until after all per-item checks: the per-item loop
interleaves them, validating each item in declaration order and then
immediately checking its ID against the IDs seen so far.  Hence whenever
the items split as `pre ++ item :: post` with every item of `pre` passing
its per-item checks with pairwise-distinct IDs, and `item` passing its
per-item checks but duplicating an earlier ID, validation fails with the
duplicate-ID error for `item` — regardless of any violation (such as an
invalid status) in `post`.  The internal-dependency rule (6) still runs
only after the whole loop. -/
theorem c5_amended_interleaved_duplicate_check (r : Roadmap)
    (pre post : List RoadmapItem) (item : RoadmapItem)
    (hname : r.name ≠ "") (hsl : r.serviceLine ≠ "")
    (hitems : r.items = pre ++ item :: post)
    (hpre : ∀ x ∈ pre, x.Validate = none)
    (hprend : (pre.map RoadmapItem.id).Nodup)
    (hitem : item.Validate = none)
    (hdupid : item.id ∈ pre.map RoadmapItem.id) :
    Roadmap.Validate r = some ("duplicate item id: " ++ item.id) := by
  obtain ⟨seen2, heq, hrep⟩ := validateItems_append (item :: post) pre 0
    (fun _ => false) hpre (fun _ _ => rfl) hprend
  have hlen : r.items.length ≠ 0 := by rw [hitems]; simp
  have hseen2 : seen2 item.id = true := by
    rw [hrep]
    simp [hdupid]
  simp only [Roadmap.Validate, if_neg hname, if_neg hsl, if_neg hlen, hitems,
    heq, validateItems, hitem, hseen2]
  simp

/-- Witness for the amended C5 at the concrete roadmap
`dupThenBadStatusRoadmap`. -/
theorem c5_amended_interleaved_duplicate_check_witness :
    Roadmap.Validate dupThenBadStatusRoadmap =
      some ("duplicate item id: " ++ itemA2.id) :=
  c5_amended_interleaved_duplicate_check dupThenBadStatusRoadmap
    [itemA] [itemCBadStatus] itemA2 (by decide) (by decide) (by decide)
    (by decide) (by decide) (by decide) (by decide)

/-- The internal-dependency scan reports nothing when every listed
dependency is in the ID set. -/
theorem checkDepList_none (itemID : String) (s : String → Bool) :
    ∀ deps : List String, (∀ d ∈ deps, s d = true) →
      checkDepList itemID s deps = none
  | [], _ => rfl
  | d :: deps, h => by
    have hd : s d = true := h d (by simp)
    simp only [checkDepList, hd]
    exact checkDepList_none itemID s deps fun x hx => h x (by simp [hx])

/-- The second loop of `Roadmap.Validate` reports nothing when every
dependency of every item is in the ID set. -/
theorem checkDeps_none (s : String → Bool) :
    ∀ items : List RoadmapItem,
      (∀ it ∈ items, ∀ d ∈ it.dependencies, s d = true) →
      checkDeps s items = none
  | [], _ => rfl
  | it :: items, h => by
    simp only [checkDeps,
      checkDepList_none it.id s it.dependencies (h it (by simp))]
    exact checkDeps_none s items fun y hy d hd => h y (by simp [hy]) d hd

/-- C9: intra-document validation accepts any roadmap whose items pass
their per-item checks, have pairwise-distinct IDs, and whose every listed
internal dependency is a member of the roadmap's item-ID set — a set that
always contains the item's own ID, and in which duplicate list entries are
harmless.  In particular a self-loop (`dependencies` containing the item's
own ID) and repeated entries are accepted. -/
theorem c9_membership_only_dependency_check (r : Roadmap)
    (hname : r.name ≠ "") (hsl : r.serviceLine ≠ "")
    (hne : r.items ≠ [])
    (hval : ∀ x ∈ r.items, x.Validate = none)
    (hnd : (r.items.map RoadmapItem.id).Nodup)
    (hdeps : ∀ x ∈ r.items, ∀ d ∈ x.dependencies,
      d ∈ r.items.map RoadmapItem.id) :
    Roadmap.Validate r = none := by
  obtain ⟨seen2, heq, hrep⟩ := validateItems_append [] r.items 0
    (fun _ => false) hval (fun _ _ => rfl) hnd
  rw [List.append_nil] at heq
  have hlen : r.items.length ≠ 0 :=
    fun h => hne (List.length_eq_zero.mp h)
  have hok : validateItems 0 (fun _ => false) r.items = Except.ok seen2 := by
    rw [heq]
    rfl
  simp only [Roadmap.Validate, if_neg hname, if_neg hsl, if_neg hlen, hok]
  exact checkDeps_none seen2 r.items fun it hit d hd => by
    rw [hrep]
    simp [hdeps it hit d hd]

/-- Witness for C9: a roadmap whose single item `a` lists `dependencies =
["a", "a"]` — its own ID, twice — validates successfully. -/
theorem c9_membership_only_dependency_check_witness :
    Roadmap.Validate selfLoopRoadmap = none :=
  c9_membership_only_dependency_check selfLoopRoadmap (by decide) (by decide)
    (by decide) (by decide) (by decide) (by decide)
